import Mathlib

/-!
Verification of the recipe-generator form controller (`public/app.js`).

The development shallowly embeds the pure core of the controller:
JavaScript numbers that may be `NaN` become `Option Int` (with `none`
playing the role of `NaN`), JavaScript truthiness is made explicit, DOM
containers become Lean lists, and the controller's submit path becomes an
explicit state-transition function.
-/

/-- A JavaScript value appearing in a nutrition field: either a number or a
string. -/
inductive JVal where
  | jnum : Int → JVal
  | jstr : String → JVal
deriving DecidableEq, Repr

/-- JavaScript truthiness of a `JVal`: `0` and `""` are falsy. -/
def JVal.truthy : JVal → Bool
  | .jnum n => n != 0
  | .jstr s => s != ""

/-- String interpolation of a `JVal` into the DOM. -/
def JVal.render : JVal → String
  | .jnum n => toString n
  | .jstr s => s

/-- JavaScript truthiness of an optional number (`none` models both a missing
field and `NaN`, which are falsy). -/
def truthyNum : Option Int → Bool
  | some n => n != 0
  | none => false

/-- JavaScript truthiness of an optional string (missing and `""` are falsy). -/
def truthyStr : Option String → Bool
  | some s => s != ""
  | none => false

/-- The JavaScript `a || b` idiom on an optional string field with a string
default: the field itself when truthy, the default otherwise. -/
def jsOrStr (a : Option String) (b : String) : String :=
  match a with
  | some s => if s = "" then b else s
  | none => b

/-- The JavaScript `a || b` idiom on two optional numeric fields: the first
when truthy, the second otherwise. -/
def jsOrNum (a b : Option Int) : Option Int :=
  if truthyNum a then a else b

/-- String interpolation of an optional number: JavaScript prints `undefined`
for a missing value and `NaN` for a failed parse; in this embedding both are
`none` and render as `"undefined"` (never the empty string, which is the point
used by claim C5). -/
def numToDisplay : Option Int → String
  | some n => toString n
  | none => "undefined"

/-- JavaScript `a < b` where `a` may be `NaN` (`none`): every comparison with
`NaN` is false. -/
def jsLt (a : Option Int) (b : Int) : Bool :=
  match a with
  | some x => x < b
  | none => false

/-- JavaScript `a > b` where `a` may be `NaN` (`none`): every comparison with
`NaN` is false. -/
def jsGt (a : Option Int) (b : Int) : Bool :=
  match a with
  | some x => x > b
  | none => false

/-- Decimal digit test used by `parseInt`. -/
def isDecDigitCh (c : Char) : Bool := '0' ≤ c && c ≤ '9'

/-- Hexadecimal digit test used by `parseInt` after a `0x` prefix. -/
def isHexDigitCh (c : Char) : Bool :=
  ('0' ≤ c && c ≤ '9') || ('a' ≤ c && c ≤ 'f') || ('A' ≤ c && c ≤ 'F')

/-- Numeric value of a (decimal or hexadecimal) digit character. -/
def digitVal (c : Char) : Nat :=
  if '0' ≤ c && c ≤ '9' then c.toNat - '0'.toNat
  else if 'a' ≤ c && c ≤ 'f' then c.toNat - 'a'.toNat + 10
  else if 'A' ≤ c && c ≤ 'F' then c.toNat - 'A'.toNat + 10
  else 0

/-- Leading sign of a numeric literal, as consumed by `parseInt`. -/
def parseSign : List Char → Int × List Char
  | '-' :: rest => (-1, rest)
  | '+' :: rest => (1, rest)
  | cs => (1, cs)

/-- Radix selection of `parseInt` with no explicit radix argument: a `0x` or
`0X` prefix switches to base 16, otherwise base 10. -/
def parseRadix : List Char → Nat × List Char
  | '0' :: c :: rest =>
      if c = 'x' || c = 'X' then (16, rest) else (10, '0' :: c :: rest)
  | cs => (10, cs)

/-- JavaScript `parseInt(s)` (no radix argument): skip leading whitespace,
consume an optional sign and an optional `0x` prefix, then read the maximal
run of digits of the chosen radix; the result is `NaN` (here `none`) when that
run is empty. -/
def jsParseInt (s : String) : Option Int :=
  let cs := s.toList.dropWhile Char.isWhitespace
  let sg := parseSign cs
  let rb := parseRadix sg.2
  let digitOk : Char → Bool := fun c =>
    if rb.1 = 16 then isHexDigitCh c else isDecDigitCh c
  let ds := rb.2.takeWhile digitOk
  if ds.isEmpty then none
  else some (sg.1 * Int.ofNat (ds.foldl (fun a c => a * rb.1 + digitVal c) 0))

/-! ### SelectionState: ingredient list and equipment selection -/

/-- JavaScript `String.prototype.trim`: drop whitespace from both ends,
written over the character list so that it evaluates by kernel reduction. -/
def trimString (s : String) : String :=
  ⟨((s.toList.dropWhile Char.isWhitespace).reverse.dropWhile Char.isWhitespace).reverse⟩

/-- `addIngredient` (app.js lines 131–141): trim the raw input; if the trimmed
string is truthy (non-empty) and not already in the list, push it, otherwise
leave the list unchanged. -/
def addIngredient (ingredients : List String) (input : String) : List String :=
  let ingredient := trimString input
  if ingredient != "" && !(ingredients.contains ingredient) then
    ingredients ++ [ingredient]
  else
    ingredients

/-- `removeIngredient` (app.js lines 143–146): keep exactly the entries that
differ from the removed name. -/
def removeIngredient (ingredients : List String) (ingredient : String) : List String :=
  ingredients.filter (fun ing => ing != ingredient)

/-- `updateEquipmentSelection` (app.js lines 117–129): when the checkbox is
checked, push the name unless already present; when unchecked, filter out
every occurrence. -/
def updateEquipmentSelection (selectedEquipment : List String) (checked : Bool)
    (equipment : String) : List String :=
  if checked then
    if selectedEquipment.contains equipment then selectedEquipment
    else selectedEquipment ++ [equipment]
  else
    selectedEquipment.filter (fun eq => eq != equipment)

/-- An operation on the equipment selection: a checkbox toggle with its
resulting checked state, or the `resetForm` action that clears the selection. -/
inductive EquipOp where
  | toggle : Bool → String → EquipOp
  | resetSel : EquipOp
deriving DecidableEq, Repr

/-- Apply one equipment operation to the selection. `resetForm` (app.js line
467) assigns the empty array. -/
def applyEquipOp (sel : List String) : EquipOp → List String
  | .toggle checked name => updateEquipmentSelection sel checked name
  | .resetSel => []

/-- Apply a sequence of equipment operations, left to right. -/
def applyEquipOps (sel : List String) (ops : List EquipOp) : List String :=
  ops.foldl applyEquipOp sel

/-! ### RequestBuilder and FormValidator -/

/-- The request payload assembled by `collectFormData`. The numeric fields are
`Option Int` because `parseInt` yields `NaN` (`none`) on unparsable input. -/
structure FormData where
  ingredients : List String
  cookingTime : Option Int
  servings : Option Int
  difficulty : String
  cuisine : String
  mealType : String
  dietaryRestrictions : String
  equipment : List String
deriving DecidableEq, Repr

/-- `collectFormData` (app.js lines 165–176): the ingredient and equipment
lists are taken from controller state, the two numeric fields go through
`parseInt`, the remaining fields are copied verbatim. -/
def collectFormData (ingredients equipment : List String)
    (cookingTimeStr servingsStr difficulty cuisine mealType dietaryRestrictions : String) :
    FormData :=
  { ingredients := ingredients
    cookingTime := jsParseInt cookingTimeStr
    servings := jsParseInt servingsStr
    difficulty := difficulty
    cuisine := cuisine
    mealType := mealType
    dietaryRestrictions := dietaryRestrictions
    equipment := equipment }

/-- Error message for an empty ingredient list. -/
def ingredientsError : String := "Please add at least one ingredient"

/-- Error message for an out-of-range cooking time. -/
def cookingTimeError : String := "Cooking time must be between 5 and 480 minutes"

/-- Error message for an out-of-range servings count. -/
def servingsError : String := "Servings must be between 1 and 20"

/-- `validateForm` (app.js lines 178–194): three independent checks, each
pushing its message; the numeric comparisons use JavaScript semantics, so a
`NaN` (`none`) value makes both bound comparisons false. -/
def validateForm (data : FormData) : List String :=
  (if data.ingredients.length == 0 then [ingredientsError] else []) ++
  (if jsLt data.cookingTime 5 || jsGt data.cookingTime 480 then [cookingTimeError] else []) ++
  (if jsLt data.servings 1 || jsGt data.servings 20 then [servingsError] else [])

/-! ### ViewController submit path -/

/-- The controller state observable across a submit invocation, up to the
point where the outbound request is issued: whether the generate button is
disabled (`setLoadingState`), how many requests have been sent so far, and the
currently displayed error message. -/
structure ControllerState where
  buttonDisabled : Bool
  requestCount : Nat
  errorMessage : Option String
deriving DecidableEq, Repr

/-- One invocation of `generateRecipe` (app.js lines 196–230), executed up to
the `await` of the outbound `fetch`: validate; on validation errors show them
joined by `". "` and stop; otherwise disable the button (`setLoadingState
true`), hide the error, and issue the request. The function performs no check
of `buttonDisabled` or of any in-flight request, exactly as the source. -/
def generateRecipeStep (data : FormData) (s : ControllerState) : ControllerState :=
  let validationErrors := validateForm data
  if validationErrors.length > 0 then
    { s with errorMessage := some (String.intercalate ". " validationErrors) }
  else
    { buttonDisabled := true
      requestCount := s.requestCount + 1
      errorMessage := none }

/-- Outcome of the outbound generate request as seen by `generateRecipe` and
`fetchAPI`: a non-2xx HTTP response carrying the optional `error` field of its
parsed body (absent when the body is not JSON), or a 2xx JSON response with
its `success` flag and optional `error` field. -/
inductive Outcome where
  | httpError : Nat → Option String → Outcome
  | ok : Bool → Option String → Outcome
deriving DecidableEq, Repr

/-- The outcome is a failure: non-2xx, or 2xx with `success: false`. -/
def isFailureOutcome : Outcome → Bool
  | .httpError _ _ => true
  | .ok success _ => !success

/-- What the controller does after the request settles: switch to the result
view and render, or stay on the form and surface one error message. -/
inductive SubmitResult where
  | showRecipe : SubmitResult
  | showedError : String → SubmitResult
deriving DecidableEq, Repr

/-- Generic message used by `showError` when a caught error has a falsy
message. -/
def genericRetryMessage : String := "Failed to generate recipe. Please try again."

/-- Post-request handling in `generateRecipe` (app.js lines 208–229) together
with `fetchAPI` (lines 232–241): a non-2xx response throws
`errorData.error || "HTTP error! status: <status>"`; a 2xx response with
`success: false` throws `response.error || "Failed to generate recipe"`;
the catch block shows `error.message || genericRetryMessage`; only the
`success: true` branch calls `displayRecipe` and switches the view. -/
def handleOutcome (o : Outcome) : SubmitResult :=
  match o with
  | .httpError status errField =>
      let m := jsOrStr errField ("HTTP error! status: " ++ toString status)
      .showedError (if m = "" then genericRetryMessage else m)
  | .ok true _ => .showRecipe
  | .ok false errField =>
      let m := jsOrStr errField "Failed to generate recipe"
      .showedError (if m = "" then genericRetryMessage else m)

/-! ### ResponseRenderer -/

/-- The optional nutrition mapping of a recipe response. -/
structure NutritionInfo where
  calories : Option JVal
  protein : Option JVal
  carbs : Option JVal
  fat : Option JVal
deriving DecidableEq, Repr

/-- The empty nutrition mapping (`recipe.nutritionInfo || {}`). -/
def emptyNutrition : NutritionInfo :=
  { calories := none, protein := none, carbs := none, fat := none }

/-- One rendered row of the nutrition section: a labelled value `div`, or the
placeholder paragraph. -/
inductive NutritionRow where
  | item : String → String → NutritionRow
  | placeholderMsg : String → NutritionRow
deriving DecidableEq, Repr

/-- The fixed table of `displayNutrition` (app.js lines 365–370): label and
value for each of the four recognized fields, in source order. -/
def nutritionItems (n : NutritionInfo) : List (String × Option JVal) :=
  [("Calories", n.calories), ("Protein", n.protein), ("Carbs", n.carbs), ("Fat", n.fat)]

/-- Placeholder shown when no nutrition field rendered. -/
def nutritionPlaceholder : String := "Nutrition information not available"

/-- `displayNutrition` (app.js lines 361–387): iterate over the four items,
appending a row for each truthy value; if the container is still empty
afterwards, set it to the single placeholder paragraph. -/
def displayNutrition (n : NutritionInfo) : List NutritionRow :=
  let container := (nutritionItems n).foldl
    (fun acc p =>
      match p.2 with
      | some v => if v.truthy then acc ++ [NutritionRow.item p.1 v.render] else acc
      | none => acc) []
  if container = [] then [NutritionRow.placeholderMsg nutritionPlaceholder] else container

/-- Placeholder variation appended when the variations list is empty. -/
def variationsPlaceholder : String :=
  "Try adding different spices or substituting ingredients to make it your own!"

/-- `displayVariations` (app.js lines 389–404): render each entry, then if the
incoming list was empty append the single placeholder suggestion. -/
def displayVariations (variations : List String) : List String :=
  variations ++ (if variations.length = 0 then [variationsPlaceholder] else [])

/-- The recipe response fields consumed by `displayRecipe` that the claims are
about. Every field is optional: the response comes from the external service. -/
structure Recipe where
  title : Option String
  description : Option String
  totalTime : Option Int
  cookTime : Option Int
  servings : Option Int
  difficulty : Option String
  cuisine : Option String
  storage : Option String
  nutritionInfo : Option NutritionInfo
  variations : Option (List String)
deriving DecidableEq, Repr

/-- The empty response `{}`. -/
def emptyRecipe : Recipe :=
  { title := none, description := none, totalTime := none, cookTime := none,
    servings := none, difficulty := none, cuisine := none, storage := none,
    nutritionInfo := none, variations := none }

/-- The text content produced by `displayRecipe` and its helpers. -/
structure DisplayModel where
  title : String
  description : String
  totalTimeText : String
  servingsText : String
  difficulty : String
  cuisine : String
  storage : String
  nutrition : List NutritionRow
  variations : List String
deriving DecidableEq, Repr

/-- `displayRecipe` (app.js lines 255–288), restricted to the text content the
claims are about: each defaulted field uses the `||` idiom of the source; the
total time is the interpolation of `recipe.totalTime || recipe.cookTime`
followed by `" min"` (so a missing pair renders as `"undefined min"`). -/
def displayRecipe (recipe : Recipe) : DisplayModel :=
  { title := jsOrStr recipe.title "Generated Recipe"
    description := jsOrStr recipe.description ""
    totalTimeText := numToDisplay (jsOrNum recipe.totalTime recipe.cookTime) ++ " min"
    servingsText := numToDisplay recipe.servings ++ " servings"
    difficulty := jsOrStr recipe.difficulty "Medium"
    cuisine := jsOrStr recipe.cuisine "Mixed"
    storage := jsOrStr recipe.storage "Store in refrigerator"
    nutrition := displayNutrition (recipe.nutritionInfo.getD emptyNutrition)
    variations := displayVariations (recipe.variations.getD []) }

/-! ### Theorems -/

/-- C1: the claim fails on the code. Evaluating the code at the failing input
(cookingTime text `"abc"`, so `parseInt` yields `NaN`): the payload's
`cookingTime` is the `NaN` sentinel, yet `validateForm` returns no error at
all, because in JavaScript both `NaN < 5` and `NaN > 480` are false, so the
guard of the range check never fires and the unparsable value is treated as
in-range. -/
theorem C1_nan_passes_validation :
    jsParseInt "abc" = none ∧
    (collectFormData ["egg"] [] "abc" "4" "Medium" "" "" "").cookingTime = none ∧
    validateForm (collectFormData ["egg"] [] "abc" "4" "Medium" "" "" "") = [] := by
  refine ⟨rfl, rfl, rfl⟩

/-- C2: the claim fails on the code. Two rapid `generateRecipe` invocations on
a valid payload: after the first, the controller is in the Submitting state
(the generate button is disabled), yet the second invocation still issues an
outbound request — `generateRecipe` contains no re-entrancy guard, so the
request count reaches 2. -/
theorem C2_double_submit_sends_two_requests :
    (generateRecipeStep (collectFormData ["egg"] [] "30" "4" "Medium" "" "" "")
        { buttonDisabled := false, requestCount := 0, errorMessage := none }).buttonDisabled
      = true ∧
    (generateRecipeStep (collectFormData ["egg"] [] "30" "4" "Medium" "" "" "")
        (generateRecipeStep (collectFormData ["egg"] [] "30" "4" "Medium" "" "" "")
          { buttonDisabled := false, requestCount := 0, errorMessage := none })).requestCount
      = 2 := by
  refine ⟨rfl, rfl⟩

/-- C3: `validateForm` reports every violated rule independently: the payload
with no ingredients but in-range numbers yields exactly the ingredient error,
and the payload with one ingredient but both numbers out of range yields
exactly the cooking-time error and the servings error. -/
theorem C3_validate_rules_independent :
    validateForm { ingredients := [], cookingTime := some 30, servings := some 4,
                   difficulty := "Medium", cuisine := "", mealType := "",
                   dietaryRestrictions := "", equipment := [] }
      = ["Please add at least one ingredient"] ∧
    validateForm { ingredients := ["egg"], cookingTime := some 3, servings := some 25,
                   difficulty := "Medium", cuisine := "", mealType := "",
                   dietaryRestrictions := "", equipment := [] }
      = ["Cooking time must be between 5 and 480 minutes",
         "Servings must be between 1 and 20"] := by
  refine ⟨rfl, rfl⟩

/-- C6: rendering the empty response `{}` produces the documented defaults
(difficulty `"Medium"`, cuisine `"Mixed"`, storage `"Store in refrigerator"`),
exactly one placeholder variation, and the single nutrition placeholder; the
renderer is a total function, so no missing field can make it fail. -/
theorem C6_render_empty_defaults :
    (displayRecipe emptyRecipe).difficulty = "Medium" ∧
    (displayRecipe emptyRecipe).cuisine = "Mixed" ∧
    (displayRecipe emptyRecipe).storage = "Store in refrigerator" ∧
    (displayRecipe emptyRecipe).variations
      = ["Try adding different spices or substituting ingredients to make it your own!"] ∧
    (displayRecipe emptyRecipe).nutrition
      = [NutritionRow.placeholderMsg "Nutrition information not available"] := by
  refine ⟨rfl, rfl, rfl, rfl, rfl⟩

/-- Characterization of `addIngredient`: the push happens exactly when the
trimmed input is non-empty and not already present. -/
theorem addIngredient_eq (l : List String) (s : String) :
    addIngredient l s =
      if trimString s ≠ "" ∧ trimString s ∉ l then l ++ [trimString s] else l := by
  simp only [addIngredient]
  by_cases h1 : trimString s = ""
  · simp [h1]
  · by_cases h2 : trimString s ∈ l
    · simp [h1, h2]
    · simp [h1, h2]

/-- C4: `addIngredient` trims its argument, is a no-op when the trimmed string
is empty or already present, otherwise appends it at the end; adding the same
input twice equals adding it once, and when it was fresh the resulting list
holds exactly one occurrence, sitting at the end of the original list. -/
theorem C4_addIngredient_spec (l : List String) (s : String) :
    (trimString s = "" → addIngredient l s = l) ∧
    (trimString s ∈ l → addIngredient l s = l) ∧
    (trimString s ≠ "" → trimString s ∉ l → addIngredient l s = l ++ [trimString s]) ∧
    addIngredient (addIngredient l s) s = addIngredient l s ∧
    (trimString s ≠ "" → trimString s ∉ l →
      (addIngredient (addIngredient l s) s).count (trimString s) = 1) := by
  refine ⟨?_, ?_, ?_, ?_, ?_⟩
  · intro h1; rw [addIngredient_eq]; simp [h1]
  · intro h2; rw [addIngredient_eq]; simp [h2]
  · intro h1 h2; rw [addIngredient_eq]; simp [h1, h2]
  · by_cases hc : trimString s ≠ "" ∧ trimString s ∉ l
    · rw [addIngredient_eq l, if_pos hc, addIngredient_eq, if_neg]
      simp [hc.1]
    · rw [addIngredient_eq l, if_neg hc, addIngredient_eq, if_neg hc]
  · intro h1 h2
    by_cases hc : trimString s ≠ "" ∧ trimString s ∉ l
    · rw [addIngredient_eq l, if_pos hc, addIngredient_eq, if_neg]
      · rw [List.count_append, List.count_eq_zero_of_not_mem h2]
        simp
      · simp [hc.1]
    · exact absurd ⟨h1, h2⟩ hc

/-- C4 witness: the three no-op/append hypotheses and the exactly-one-occurrence
consequence, discharged at concrete inputs. -/
theorem C4_addIngredient_spec_witness :
    addIngredient ["rice"] "   " = ["rice"] ∧
    addIngredient ["egg"] "egg" = ["egg"] ∧
    addIngredient ["rice"] " egg " = ["rice", "egg"] ∧
    (addIngredient (addIngredient ["rice"] "egg") "egg").count "egg" = 1 :=
  ⟨(C4_addIngredient_spec ["rice"] "   ").1 (by decide),
   (C4_addIngredient_spec ["egg"] "egg").2.1 (by decide),
   (C4_addIngredient_spec ["rice"] " egg ").2.2.1 (by decide) (by decide),
   (C4_addIngredient_spec ["rice"] "egg").2.2.2.2 (by decide) (by decide)⟩

/-- C9: `removeIngredient` deletes every occurrence of the name, the remaining
entries keep their relative order (the result is a sublist of the input),
every other entry keeps its multiplicity, and when the name is absent the list
is returned unchanged. -/
theorem C9_removeIngredient_spec (l : List String) (name : String) :
    name ∉ removeIngredient l name ∧
    (removeIngredient l name).Sublist l ∧
    (∀ x, x ≠ name → (removeIngredient l name).count x = l.count x) ∧
    (name ∉ l → removeIngredient l name = l) := by
  refine ⟨?_, ?_, ?_, ?_⟩
  · intro hmem
    rw [removeIngredient, List.mem_filter] at hmem
    simp at hmem
  · exact List.filter_sublist l
  · intro x hx
    rw [removeIngredient, List.count_filter]
    simp [hx]
  · intro habs
    rw [removeIngredient]
    apply List.filter_eq_self.mpr
    intro a ha
    have : a ≠ name := fun hcontra => habs (hcontra ▸ ha)
    simpa using this

/-- C9 witness: the multiplicity-preservation and no-op hypotheses discharged
at concrete inputs. -/
theorem C9_removeIngredient_spec_witness :
    (removeIngredient ["egg", "rice", "egg"] "egg").count "rice"
      = (["egg", "rice", "egg"] : List String).count "rice" ∧
    removeIngredient ["rice"] "egg" = ["rice"] :=
  ⟨(C9_removeIngredient_spec ["egg", "rice", "egg"] "egg").2.2.1 "rice" (by decide),
   (C9_removeIngredient_spec ["rice"] "egg").2.2.2 (by decide)⟩

/-- One equipment operation preserves duplicate-freeness of the selection. -/
theorem nodup_applyEquipOp (sel : List String) (op : EquipOp) (h : sel.Nodup) :
    (applyEquipOp sel op).Nodup := by
  cases op with
  | resetSel => exact List.nodup_nil
  | toggle checked name =>
      simp only [applyEquipOp, updateEquipmentSelection]
      cases checked with
      | false => simpa using h.filter _
      | true =>
          by_cases hm : name ∈ sel
          · simpa [hm] using h
          · simp [hm, List.nodup_append, h]

/-- A sequence of equipment operations starting from a duplicate-free
selection keeps it duplicate-free. -/
theorem nodup_applyEquipOps (ops : List EquipOp) :
    ∀ sel : List String, sel.Nodup → (applyEquipOps sel ops).Nodup := by
  induction ops with
  | nil => intro sel h; simpa [applyEquipOps] using h
  | cons op rest ih =>
      intro sel h
      simp only [applyEquipOps, List.foldl_cons]
      exact ih (applyEquipOp sel op) (nodup_applyEquipOp sel op h)

/-- C10: from the empty selection, every sequence of toggle and reset
operations leaves the equipment selection duplicate-free (each name occurs at
most once), and toggling a name on twice equals toggling it on once. -/
theorem C10_equipment_selection_nodup (ops : List EquipOp) (sel : List String) (e : String) :
    (applyEquipOps [] ops).Nodup ∧
    updateEquipmentSelection (updateEquipmentSelection sel true e) true e
      = updateEquipmentSelection sel true e := by
  constructor
  · exact nodup_applyEquipOps ops [] List.nodup_nil
  · by_cases hm : e ∈ sel
    · simp [updateEquipmentSelection, hm]
    · simp [updateEquipmentSelection, hm]

/-- The row produced for one nutrition item, when its value is truthy. This is
the specification-side description of one item: the four recognized fields are
kept exactly when truthy. -/
def nutritionRowOf (p : String × Option JVal) : Option NutritionRow :=
  match p.2 with
  | some v => if v.truthy then some (NutritionRow.item p.1 v.render) else none
  | none => none

/-- Specification-side description of the nutrition section, following the
spec's words: exactly the truthy recognized fields, in the fixed order. -/
def nutritionSpecRows (n : NutritionInfo) : List NutritionRow :=
  (nutritionItems n).filterMap nutritionRowOf

/-- Appending each produced element during a left fold is the same as
collecting them with `filterMap`. -/
theorem foldl_push_eq_filterMap (f : String × Option JVal → Option NutritionRow) :
    ∀ (l : List (String × Option JVal)) (acc : List NutritionRow),
      l.foldl (fun a x => match f x with | some b => a ++ [b] | none => a) acc
        = acc ++ l.filterMap f := by
  intro l
  induction l with
  | nil => intro acc; simp
  | cons x xs ih =>
      intro acc
      rw [List.foldl_cons, List.filterMap_cons]
      cases hf : f x with
      | none => simp [ih]
      | some b => simp [ih]

/-- C7: for every nutrition mapping, the rendered section holds exactly the
truthy recognized fields (calories, protein, carbs, fat) in that order, and
collapses to the single placeholder line when none is truthy. -/
theorem C7_nutrition_section_spec (n : NutritionInfo) :
    displayNutrition n =
      if nutritionSpecRows n = []
      then [NutritionRow.placeholderMsg "Nutrition information not available"]
      else nutritionSpecRows n := by
  have hbody :
      (fun (acc : List NutritionRow) (p : String × Option JVal) =>
        match p.2 with
        | some v => if v.truthy then acc ++ [NutritionRow.item p.1 v.render] else acc
        | none => acc)
      = (fun (a : List NutritionRow) (x : String × Option JVal) =>
          match nutritionRowOf x with | some b => a ++ [b] | none => a) := by
    funext acc p
    rcases p with ⟨label, v⟩
    cases v with
    | none => rfl
    | some w =>
        by_cases hw : w.truthy
        · simp [nutritionRowOf, hw]
        · simp [nutritionRowOf, hw]
  rw [displayNutrition, nutritionPlaceholder]
  rw [hbody, foldl_push_eq_filterMap, List.nil_append]
  rfl

/-- C5 counterexample: for the empty response, with both `totalTime` and
`cookTime` absent, the rendered total time is the literal text
`"undefined min"`, not the empty display the claim asserts. -/
theorem C5_counterexample_empty_display :
    (displayRecipe emptyRecipe).totalTimeText = "undefined min" ∧
    (displayRecipe emptyRecipe).totalTimeText ≠ "" := by
  refine ⟨rfl, by decide⟩

/-- C5 (amended): the rendered total time is the interpolation of
`totalTime || cookTime` followed by `" min"`: `totalTime` when present and
non-zero, else `cookTime` when present (even when zero), else the literal
`"undefined"`; it is never empty. -/
theorem C5_totalTime_amended (r : Recipe) :
    (∀ n : Int, r.totalTime = some n → n ≠ 0 →
        (displayRecipe r).totalTimeText = toString n ++ " min") ∧
    (truthyNum r.totalTime = false → ∀ n : Int, r.cookTime = some n →
        (displayRecipe r).totalTimeText = toString n ++ " min") ∧
    (truthyNum r.totalTime = false → r.cookTime = none →
        (displayRecipe r).totalTimeText = "undefined min") := by
  refine ⟨?_, ?_, ?_⟩
  · intro n hn hnz
    simp [displayRecipe, jsOrNum, truthyNum, hn, hnz, numToDisplay]
  · intro ht n hn
    simp [displayRecipe, jsOrNum, ht, hn, numToDisplay]
  · intro ht hc
    simp [displayRecipe, jsOrNum, ht, hc, numToDisplay]

/-- C5 witness: the amended total-time rule at three concrete responses, one
per branch. -/
theorem C5_totalTime_amended_witness :
    (displayRecipe { emptyRecipe with totalTime := some 25 }).totalTimeText = "25 min" ∧
    (displayRecipe { emptyRecipe with cookTime := some 10 }).totalTimeText = "10 min" ∧
    (displayRecipe emptyRecipe).totalTimeText = "undefined min" :=
  ⟨(C5_totalTime_amended { emptyRecipe with totalTime := some 25 }).1 25 rfl (by decide),
   (C5_totalTime_amended { emptyRecipe with cookTime := some 10 }).2.1 (by decide) 10 rfl,
   (C5_totalTime_amended emptyRecipe).2.2 (by decide) rfl⟩

/-- C8 counterexample: a 2xx response with `success: false` whose `error`
field is present but empty surfaces the generic fallback, not the (present)
server-supplied text. -/
theorem C8_counterexample_empty_error_field :
    handleOutcome (Outcome.ok false (some "")) ≠ SubmitResult.showedError "" ∧
    handleOutcome (Outcome.ok false (some ""))
      = SubmitResult.showedError "Failed to generate recipe" := by
  refine ⟨by decide, rfl⟩

/-- Specification-side expected message for a failed outcome: the
server-supplied error text when present and non-empty, otherwise the generic
fallback of that path. -/
def expectedFailureMessage : Outcome → String
  | .httpError status errField =>
      if truthyStr errField then errField.getD ""
      else "HTTP error! status: " ++ toString status
  | .ok _ errField =>
      if truthyStr errField then errField.getD ""
      else "Failed to generate recipe"

/-- C8 (amended): every non-2xx outcome and every `success: false` outcome is
surfaced as exactly one error message — the server-supplied error text when
present and non-empty, the generic fallback otherwise — and the controller
does not switch to the result view. -/
theorem C8_failure_surfaced_amended (o : Outcome) (h : isFailureOutcome o = true) :
    handleOutcome o = SubmitResult.showedError (expectedFailureMessage o) ∧
    handleOutcome o ≠ SubmitResult.showRecipe := by
  cases o with
  | httpError status errField =>
      constructor
      · have hne : ("HTTP error! status: " ++ toString status) ≠ "" := by
          intro hcontra
          have hlen := congrArg String.length hcontra
          rw [String.length_append] at hlen
          have h20 : ("HTTP error! status: " : String).length = 20 := rfl
          have h0 : ("" : String).length = 0 := rfl
          rw [h20, h0] at hlen
          omega
        cases errField with
        | none => simp [handleOutcome, expectedFailureMessage, jsOrStr, truthyStr, hne]
        | some t =>
            by_cases ht : t = ""
            · simp [handleOutcome, expectedFailureMessage, jsOrStr, truthyStr, ht, hne]
            · simp [handleOutcome, expectedFailureMessage, jsOrStr, truthyStr, ht]
      · cases errField with
        | none => simp [handleOutcome, jsOrStr]
        | some t =>
            by_cases ht : t = "" <;> simp [handleOutcome, jsOrStr, ht]
  | ok success errField =>
      cases success with
      | true => simp [isFailureOutcome] at h
      | false =>
          constructor
          · have hne : ("Failed to generate recipe" : String) ≠ "" := by decide
            cases errField with
            | none => simp [handleOutcome, expectedFailureMessage, jsOrStr, truthyStr, hne]
            | some t =>
                by_cases ht : t = ""
                · simp [handleOutcome, expectedFailureMessage, jsOrStr, truthyStr, ht, hne]
                · simp [handleOutcome, expectedFailureMessage, jsOrStr, truthyStr, ht]
          · cases errField with
            | none => simp [handleOutcome, jsOrStr]
            | some t =>
                by_cases ht : t = "" <;> simp [handleOutcome, jsOrStr, ht]

/-- C8 witness: the amended failure rule at a concrete `success: false`
outcome carrying a non-empty server error text. -/
theorem C8_failure_surfaced_amended_witness :
    handleOutcome (Outcome.ok false (some "boom")) = SubmitResult.showedError "boom" ∧
    handleOutcome (Outcome.ok false (some "boom")) ≠ SubmitResult.showRecipe :=
  C8_failure_surfaced_amended (Outcome.ok false (some "boom")) (by decide)
